import Mathlib

/-!
Verification development for the SQL LL(1) analyzer
(`sql_compiler/syntaxAnalysis.py`, lexer contract from `lexicalAnalysis.py`).

Conventions of the shallow embedding:
* Grammar symbols (terminals and non-terminals) are `String`, exactly as the
  Python source keys its dictionaries by strings.
* Python `set` objects of strings are modelled as duplicate-free `List String`
  in insertion order; set insertion is append-if-absent.  Membership and
  equality are the observables the source uses, and those agree.
* Python dicts from non-terminal to set are association lists (`SetMap`).
* The two `while changed:` fixpoint loops of `_compute_first_sets` /
  `_compute_follow_sets` are modelled with an explicit fuel parameter that
  stops as soon as one pass leaves the state unchanged (the same convergence
  condition the source tests).  The fuel (100) is far above the number of
  passes the fixed grammar needs.
* `print` of a table-conflict warning is modelled by appending the offending
  cell to a `conflicts` list (the observable content of the warning).
-/

namespace SqlLL1

/-- A mapping from non-terminal name to a set of symbols, as used for
`self.first_sets` and `self.follow_sets`. -/
abbrev SetMap := List (String × List String)

/-- `m[k]` for a `SetMap` (all keys are initialised up front by the source). -/
def getSet (m : SetMap) (k : String) : List String :=
  match m.lookup k with
  | some s => s
  | none => []

/-- Python `set.add`: append if not already present. -/
def setInsert (s : List String) (x : String) : List String :=
  if x ∈ s then s else s ++ [x]

/-- Update the entry of key `k` by `f` (keys are pre-initialised). -/
def mapUpdate (m : SetMap) (k : String) (f : List String → List String) : SetMap :=
  m.map (fun p => if p.1 = k then (p.1, f p.2) else p)

/-- `self.first_sets[nt].add(x)` (resp. follow). -/
def addToSet (m : SetMap) (k : String) (x : String) : SetMap :=
  mapUpdate m k (fun s => setInsert s x)

/-- `self.first_sets[nt].update(xs)` (resp. follow). -/
def addAllToSet (m : SetMap) (k : String) (xs : List String) : SetMap :=
  xs.foldl (fun m x => addToSet m k x) m

/-- The grammar/terminal data a `SyntaxAnalyzer` instance carries
(`self.grammar` and `self.terminals`); the builder methods below are generic
over it, exactly as the Python methods read these fields off `self`. -/
structure GrammarDef where
  grammar : List (String × List (List String))
  terminals : List String

/-- `self.non_terminals = set(self.grammar.keys())`. -/
def nonTerminalsOf (G : GrammarDef) : List String :=
  G.grammar.map (fun p => p.1)

/-- The fixed SQL grammar from `SyntaxAnalyzer.__init__` (`self.grammar`),
in source order. -/
def sql_grammar : List (String × List (List String)) :=
  [ ("Prog", [["Query", ";"]]),
    ("Query",
      [ ["SELECT", "SelList", "FROM", "Tbl", "WhereOpt"],
        ["INSERT", "INTO", "Tbl", "VALUES", "(", "ValList", ")"],
        ["UPDATE", "Tbl", "SET", "SetList"],
        ["DELETE", "FROM", "Tbl"] ]),
    ("SelList", [["*"], ["ID", "SelListRest"]]),
    ("SelListRest", [[], [",", "ID", "SelListRest"]]),
    ("Tbl", [["ID"]]),
    ("WhereOpt", [[], ["WHERE", "Cond"]]),
    ("Cond", [["Expr", "RelOp", "Expr", "CondTail"]]),
    ("CondTail", [[], ["AND", "Cond"], ["OR", "Cond"]]),
    ("Expr", [["ID"], ["NUM"], ["STRING"]]),
    ("RelOp", [["="], ["<>"], ["<"], [">"], ["<="], [">="], ["!="]]),
    ("ValList", [["Val", "ValListRest"]]),
    ("ValListRest", [[], [",", "Val", "ValListRest"]]),
    ("Val", [["ID"], ["NUM"], ["STRING"]]),
    ("SetList", [["ID", "=", "Val", "SetListRest"]]),
    ("SetListRest", [[], [",", "ID", "=", "Val", "SetListRest"]]) ]

/-- The fixed terminal set from `SyntaxAnalyzer.__init__` (`self.terminals`). -/
def sql_terminals : List String :=
  [ "SELECT", "FROM", "WHERE", "INSERT", "INTO", "VALUES", "UPDATE", "SET",
    "DELETE", "AND", "OR", "ID", "NUM", "STRING", "*", ",", ";", "(", ")",
    "EOF", "=", "<>", "<", ">", "<=", ">=", "!=" ]

/-- The fixed analyzer's grammar definition. -/
def sqlG : GrammarDef := { grammar := sql_grammar, terminals := sql_terminals }

/-- The scan inside `_add_first_of_production`: walk the production's symbols,
a terminal contributes itself and stops, a non-terminal contributes its FIRST
set minus ε and the scan continues only if it is nullable; reaching the last
symbol with it nullable contributes ε. -/
def addFirstScan (G : GrammarDef) (nt : String) : SetMap → List String → SetMap
  | fs, [] => fs
  | fs, s :: rest =>
    if s ∈ G.terminals then
      addToSet fs nt s
    else if s ∈ nonTerminalsOf G then
      let contrib := (getSet fs s).filter (fun x => x ≠ "ε")
      let fs1 := addAllToSet fs nt contrib
      if "ε" ∈ getSet fs1 s then
        match rest with
        | [] => addToSet fs1 nt "ε"
        | _ => addFirstScan G nt fs1 rest
      else fs1
    else addFirstScan G nt fs rest

/-- `_add_first_of_production`: an empty production contributes ε, otherwise
scan the symbols. -/
def addFirstOfProduction (G : GrammarDef) (fs : SetMap) (nt : String)
    (production : List String) : SetMap :=
  match production with
  | [] => addToSet fs nt "ε"
  | _ => addFirstScan G nt fs production

/-- One full pass of the `while changed:` loop in `_compute_first_sets`:
apply every production of every non-terminal, in source order, to the
(in-place updated) map. -/
def firstPass (G : GrammarDef) (fs : SetMap) : SetMap :=
  G.grammar.foldl
    (fun fs p => p.2.foldl (fun fs production => addFirstOfProduction G fs p.1 production) fs)
    fs

/-- Fuel-bounded `while changed:` iteration: stop as soon as a pass leaves the
state unchanged (the convergence condition the source detects via set growth). -/
def iterateFix (pass : SetMap → SetMap) : Nat → SetMap → SetMap
  | 0, fs => fs
  | fuel + 1, fs =>
    let fs1 := pass fs
    if fs1 = fs then fs else iterateFix pass fuel fs1

/-- Initialisation: every non-terminal mapped to the empty set. -/
def initSets (G : GrammarDef) : SetMap :=
  (nonTerminalsOf G).map (fun nt => (nt, []))

/-- `_compute_first_sets`. -/
def computeFirstSets (G : GrammarDef) : SetMap :=
  iterateFix (firstPass G) 100 (initSets G)

/-- `_first_of_sequence`'s scan, accumulating into `acc`. -/
def firstOfSeqScan (G : GrammarDef) (fs : SetMap) : List String → List String → List String
  | acc, [] => acc
  | acc, s :: rest =>
    if s ∈ G.terminals then
      setInsert acc s
    else if s ∈ nonTerminalsOf G then
      let acc1 := ((getSet fs s).filter (fun x => x ≠ "ε")).foldl setInsert acc
      if "ε" ∈ getSet fs s then
        match rest with
        | [] => setInsert acc1 "ε"
        | _ => firstOfSeqScan G fs acc1 rest
      else acc1
    else firstOfSeqScan G fs acc rest

/-- `_first_of_sequence`: FIRST of a symbol sequence; `{ε}` for the empty one. -/
def firstOfSequence (G : GrammarDef) (fs : SetMap) (sequence : List String) : List String :=
  match sequence with
  | [] => ["ε"]
  | _ => firstOfSeqScan G fs [] sequence

/-- The scan inside `_add_follow_of_production`: for each non-terminal
occurrence `B` in the production of `nt`, FOLLOW(B) gains FIRST(remaining)
minus ε, and all of FOLLOW(nt) when the remainder is empty or nullable. -/
def addFollowScan (G : GrammarDef) (fs : SetMap) (nt : String) : SetMap → List String → SetMap
  | flw, [] => flw
  | flw, s :: rest =>
    let flw1 :=
      if s ∈ nonTerminalsOf G then
        match rest with
        | [] => addAllToSet flw s (getSet flw nt)
        | _ =>
          let fir := firstOfSequence G fs rest
          if "ε" ∈ fir then
            let flwA := addAllToSet flw s (getSet flw nt)
            addAllToSet flwA s (fir.filter (fun x => x ≠ "ε"))
          else addAllToSet flw s fir
      else flw
    addFollowScan G fs nt flw1 rest

/-- One full pass of the `while changed:` loop in `_compute_follow_sets`. -/
def followPass (G : GrammarDef) (fs : SetMap) (flw : SetMap) : SetMap :=
  G.grammar.foldl
    (fun flw p => p.2.foldl (fun flw production => addFollowScan G fs p.1 flw production) flw)
    flw

/-- `_compute_follow_sets`: the start symbol `Prog` gets `$`, then iterate to
the fixpoint. -/
def computeFollowSets (G : GrammarDef) (fs : SetMap) : SetMap :=
  iterateFix (followPass G fs) 100 (addToSet (initSets G) "Prog" "$")

/-- The state `_build_parsing_table` builds: the assigned cells of
`self.parsing_table` (a cell that was never assigned keeps its initial `None`,
modelled by absence), and the list of conflict cells the source `print`s a
warning for. -/
structure TableState where
  table : List ((String × String) × List String)
  conflicts : List (String × String)
deriving DecidableEq

/-- One assignment `self.parsing_table[nt][terminal] = production`, preceded by
the source's conflict check: if the cell is already set, a warning is recorded
— and the assignment still happens, overwriting the cell (Python dict
assignment). -/
def tableAssign (st : TableState) (nt t : String) (production : List String) : TableState :=
  if (st.table.lookup (nt, t)).isSome then
    { table := st.table.map (fun e => if e.1 = (nt, t) then ((nt, t), production) else e),
      conflicts := st.conflicts ++ [(nt, t)] }
  else
    { table := st.table ++ [((nt, t), production)], conflicts := st.conflicts }

/-- `self.parsing_table[nt].get(t)`: `some` production for an assigned cell
(the empty list denoting the ε production), `none` for an unassigned cell. -/
def tableGet (tbl : List ((String × String) × List String)) (nt t : String) :
    Option (List String) :=
  tbl.lookup (nt, t)

/-- `_build_parsing_table`: for every production `A → α`, assign
`M[A][t] := α` for every `t ∈ FIRST(α) - {ε}`, and if `α` is nullable assign
`M[A][t] := ε` for every `t ∈ FOLLOW(A)`; each assignment goes through
`tableAssign`'s conflict check. -/
def buildParsingTable (G : GrammarDef) (fs flw : SetMap) : TableState :=
  G.grammar.foldl
    (fun st p =>
      p.2.foldl
        (fun st production =>
          let fop := firstOfSequence G fs production
          let st1 := (fop.filter (fun x => x ≠ "ε")).foldl
            (fun st t => tableAssign st p.1 t production) st
          if "ε" ∈ fop then
            (getSet flw p.1).foldl (fun st t => tableAssign st p.1 t []) st1
          else st1)
        st)
    { table := [], conflicts := [] }

/-- FIRST sets of the fixed analyzer (`self.first_sets` after `__init__`). -/
def sqlFirstSets : SetMap := computeFirstSets sqlG

/-- FOLLOW sets of the fixed analyzer (`self.follow_sets` after `__init__`). -/
def sqlFollowSets : SetMap := computeFollowSets sqlG sqlFirstSets

/-- Prediction table (and conflict warnings) of the fixed analyzer. -/
def sqlTableState : TableState := buildParsingTable sqlG sqlFirstSets sqlFollowSets

/-! ## Token mapping and the predictive parsing engine (`analyze_tokens`) -/

/-- A lexer token `(type, value, line, col)` as produced by `tokenize`. -/
abbrev Tok := String × String × Nat × Nat

/-- A mapped token `(terminal, value, line, col)` as fed to the engine. -/
abbrev MTok := String × String × Nat × Nat

/-- Python `str.upper()` on the ASCII token values: character-wise uppercase.
(Stated over the character list rather than `String.toUpper`, whose
`mapAux` is defined by well-founded recursion and does not reduce in the
kernel; on these values the two agree.) -/
def strUpper (s : String) : String := ⟨s.data.map Char.toUpper⟩

/-- `self.token_to_terminal`: the outer `Option` is dict membership
(`None` = token type has no entry, e.g. `UNKNOWN`), the inner `Option` is the
mapping function's result (`COMMENT` maps to `None`). -/
def token_to_terminal (ttype : String) (value : String) : Option (Option String) :=
  match ttype with
  | "KEYWORD" => some (some (strUpper value))
  | "ID" => some (some "ID")
  | "NUM" => some (some "NUM")
  | "STRING" => some (some "STRING")
  | "RANGE" => some (some value)
  | "OP" => some (some value)
  | "COMMENT" => some none
  | "EOF" => some (some "EOF")
  | _ => none

/-- The token-to-terminal conversion loop shared (verbatim, in effect) by
`_map_tokens` and the inline loop at the top of `analyze_tokens`: drop tokens
whose type has no mapping or whose mapping yields `None`, keep the rest as
`(terminal, value, line, col)`, and append the `('EOF', '$', 0, 0)` sentinel. -/
def mapTokens (tokens : List Tok) : List MTok :=
  (tokens.filterMap (fun t =>
    match token_to_terminal t.1 t.2.1 with
    | some (some term) => some (term, t.2.1, t.2.2.1, t.2.2.2)
    | _ => none)) ++ [("EOF", "$", 0, 0)]

/-- Whether a token survives the conversion (is neither an unknown type nor
mapped to `None`). -/
def keepToken (t : Tok) : Bool :=
  match token_to_terminal t.1 t.2.1 with
  | some (some _) => true
  | _ => false

/-- One step record `[步骤, 语法栈, 输入串, 表达式]` of the engine's output.
The source stores `str(stack)` and a stringified 3-token input preview; the
snapshot content is kept structured here (the stack list and the preview's
`(terminal, value)` pairs). -/
structure TraceRecord where
  step : Nat
  stackSnapshot : List String
  inputPreview : List (String × String)
  expression : String
deriving DecidableEq, Repr

/-- `_create_error_output`: the single error record `[1, "[]", "[]", msg]`. -/
def createErrorOutput (errorMsg : String) : List TraceRecord :=
  [{ step := 1, stackSnapshot := [], inputPreview := [], expression := errorMsg }]

/-- Outcome of one iteration of the engine's `while stack:` loop body. -/
inductive StepResult where
  /-- The accept branch: the record is appended and the loop `break`s
  (the stack is left as it is). -/
  | acceptRec (rec : TraceRecord)
  /-- An error branch: the record is appended to the (then discarded) trace and
  `analyze_tokens` returns `createErrorOutput msg`. -/
  | errorHalt (rec : TraceRecord) (msg : String)
  /-- A match or expansion: the loop continues with the new stack and input. -/
  | next (stack : List String) (input : List MTok) (rec : TraceRecord)
deriving DecidableEq, Repr

/-- The body of the engine loop in `analyze_tokens`, for one iteration.
The stack is a `List String` with the top at the END, as in the source
(`top = stack[-1]`, `stack.pop()`, `stack.append`). -/
def engineStep (tbl : List ((String × String) × List String))
    (terminals nts : List String)
    (stack : List String) (input : List MTok) (step : Nat) : StepResult :=
  let top := stack.getLastD ""
  let currentToken := input.headD ("EOF", "$", 0, 0)
  let currentType := currentToken.1
  let snapshot := stack
  let preview := (input.take 3).map (fun t => (t.1, t.2.1))
  if top = "$" ∧ currentType = "EOF" then
    .acceptRec { step := step, stackSnapshot := snapshot, inputPreview := preview,
                 expression := "接受" }
  else if top ∈ terminals then
    if top = currentType then
      .next stack.dropLast input.tail
        { step := step, stackSnapshot := snapshot, inputPreview := preview,
          expression := "匹配 " ++ currentType }
    else
      let msg := "错误：期望 " ++ top ++ "，得到 " ++ currentType
      .errorHalt { step := step, stackSnapshot := snapshot, inputPreview := preview,
                   expression := msg } msg
  else if top ∈ nts then
    match tableGet tbl top currentType with
    | none =>
      let msg := "错误：" ++ top ++ " 在 " ++ currentType ++ " 处无产生式"
      .errorHalt { step := step, stackSnapshot := snapshot, inputPreview := preview,
                   expression := msg } msg
    | some production =>
      match production with
      | [] =>
        .next stack.dropLast input
          { step := step, stackSnapshot := snapshot, inputPreview := preview,
            expression := "用 " ++ top ++ " -> ε" }
      | _ =>
        .next (stack.dropLast ++ production.reverse) input
          { step := step, stackSnapshot := snapshot, inputPreview := preview,
            expression := "用 " ++ top ++ " -> " ++ String.intercalate " " production }
  else
    let msg := "错误：未知符号 " ++ top
    .errorHalt { step := step, stackSnapshot := snapshot, inputPreview := preview,
                 expression := msg } msg

/-- The engine's `while stack:` loop, fuel-bounded (the source's loop
terminates for the fixed grammar; fuel is a modelling device).  Returns the
produced output together with the loop's final local `stack` value at the
moment `analyze_tokens` returns. -/
def engineLoopFull (tbl : List ((String × String) × List String))
    (terminals nts : List String) :
    Nat → List String → List MTok → Nat → List TraceRecord →
    List TraceRecord × List String
  | 0, stack, _, _, output => (output, stack)
  | fuel + 1, stack, input, step, output =>
    if stack = [] then (output, stack)
    else
      match engineStep tbl terminals nts stack input (step + 1) with
      | .acceptRec rec => (output ++ [rec], stack)
      | .errorHalt rec msg =>
        -- the source appends `rec` to `output` and then returns
        -- `_create_error_output(msg)`, discarding the accumulated trace
        let _discarded := output ++ [rec]
        (createErrorOutput msg, stack)
      | .next stack1 input1 rec =>
        engineLoopFull tbl terminals nts fuel stack1 input1 (step + 1) (output ++ [rec])

/-- The per-instance state of a `SyntaxAnalyzer` object: the fields set in
`__init__` plus the tree builder's cursor fields `_idx` / `_stream`
(defaulted before their first assignment). -/
structure Analyzer where
  grammar : List (String × List (List String))
  terminals : List String
  non_terminals : List String
  first_sets : SetMap
  follow_sets : SetMap
  parsing_table : List ((String × String) × List String)
  idx : Nat
  stream : List MTok
deriving DecidableEq

/-- `SyntaxAnalyzer()` — the state after `__init__` runs on the fixed data. -/
def initAnalyzer : Analyzer :=
  { grammar := sql_grammar
    terminals := sql_terminals
    non_terminals := nonTerminalsOf sqlG
    first_sets := sqlFirstSets
    follow_sets := sqlFollowSets
    parsing_table := sqlTableState.table
    idx := 0
    stream := [] }

/-- `analyze_tokens`: empty token list fails immediately; otherwise convert,
append EOF, and run the engine from stack `['$', 'Prog']`.  The method assigns
no field of `self`, so the analyzer comes back as it went in.  Also returns
the engine loop's final stack (a local of the source function, exposed for
the statements below). -/
def analyzeTokensFull (fuel : Nat) (a : Analyzer) (tokens : List Tok) :
    (List TraceRecord × List String) × Analyzer :=
  if tokens = [] then ((createErrorOutput "输入为空", []), a)
  else
    ((engineLoopFull a.parsing_table a.terminals a.non_terminals fuel
        ["$", "Prog"] (mapTokens tokens) 0 []), a)

/-- `analyze_tokens`'s actual return value (the trace), with the analyzer. -/
def analyzeTokens (fuel : Nat) (a : Analyzer) (tokens : List Tok) :
    List TraceRecord × Analyzer :=
  let r := analyzeTokensFull fuel a tokens
  (r.1.1, r.2)

/-! ## Syntax-tree builder (`build_ast_from_tokens` and the `_parse_*` methods)

The `_parse_*` methods read the fixed `self._stream` and mutate only the
cursor `self._idx`; raised exceptions (`SyntaxError`, `NotImplementedError`)
are modelled by `Except.error` carrying the exception's message.  The
recursive methods get a fuel parameter (the source recursion terminates on
every stream because each recursive call first consumes a token; fuel is a
modelling device and `buildAstFromTokens` passes more than enough). -/

/-- The AST node classes nested in `SyntaxAnalyzer`.  The Python class
`String` is rendered `StringLit` (the name `String` is taken in Lean). -/
inductive ASTNode where
  | Program (query : ASTNode)
  | Select (columns : ASTNode) (table : ASTNode) (whereClause : Option ASTNode)
  | Columns (all : Bool) (names : List String)
  | Table (name : String)
  | Identifier (name : String)
  | Number (value : String)
  | StringLit (value : String)
  | BinaryOp (left : ASTNode) (op : String) (right : ASTNode)
deriving Repr

/-- `self._current()`: `self._stream[self._idx]`; an out-of-range index would
raise Python's `IndexError` (unreachable from the entry points, since the
stream ends in the `EOF` sentinel that no parse method consumes mid-run). -/
def currentTok (stream : List MTok) (idx : Nat) : Except String MTok :=
  match stream.get? idx with
  | some tok => .ok tok
  | none => .error "IndexError: list index out of range"

/-- `self._accept(term)`: consume and return the current token if its terminal
matches, else leave the cursor and return `none`. -/
def accept (stream : List MTok) (idx : Nat) (term : String) :
    Except String (Option MTok × Nat) :=
  match currentTok stream idx with
  | .error e => .error e
  | .ok tok => if tok.1 = term then .ok (some tok, idx + 1) else .ok (none, idx)

/-- `self._expect(term)`: consume the current token or raise
`SyntaxError(f"期望 {term}，得到 {tok[0]}")`. -/
def expect (stream : List MTok) (idx : Nat) (term : String) :
    Except String (MTok × Nat) :=
  match currentTok stream idx with
  | .error e => .error e
  | .ok tok =>
    if tok.1 ≠ term then .error ("期望 " ++ term ++ "，得到 " ++ tok.1)
    else .ok (tok, idx + 1)

/-- `_parse_SelListRest`: `ε | , ID SelListRest`, collecting names. -/
def parse_SelListRest : Nat → List MTok → Nat → Except String (List String × Nat)
  | 0, _, _ => .error "递归深度超限"
  | fuel + 1, stream, idx =>
    match accept stream idx "," with
    | .error e => .error e
    | .ok (none, i) => .ok ([], i)
    | .ok (some _, i) =>
      match expect stream i "ID" with
      | .error e => .error e
      | .ok (idTok, i2) =>
        match parse_SelListRest fuel stream i2 with
        | .error e => .error e
        | .ok (names, i3) => .ok (idTok.2.1 :: names, i3)

/-- `_parse_SelList`: `* | ID SelListRest`. -/
def parse_SelList (fuel : Nat) (stream : List MTok) (idx : Nat) :
    Except String (ASTNode × Nat) :=
  match accept stream idx "*" with
  | .error e => .error e
  | .ok (some _, i) => .ok (.Columns true [], i)
  | .ok (none, i) =>
    match expect stream i "ID" with
    | .error e => .error e
    | .ok (idTok, i2) =>
      match parse_SelListRest fuel stream i2 with
      | .error e => .error e
      | .ok (names, i3) => .ok (.Columns false (idTok.2.1 :: names), i3)

/-- `_parse_Tbl`: a single identifier. -/
def parse_Tbl (stream : List MTok) (idx : Nat) : Except String (ASTNode × Nat) :=
  match expect stream idx "ID" with
  | .error e => .error e
  | .ok (idTok, i) => .ok (.Table idTok.2.1, i)

/-- `_parse_Expr`: `ID | NUM | STRING`, else
`SyntaxError(f"Expr 起始符错误：{tok[0]}")`. -/
def parse_Expr (stream : List MTok) (idx : Nat) : Except String (ASTNode × Nat) :=
  match currentTok stream idx with
  | .error e => .error e
  | .ok tok =>
    if tok.1 = "ID" then .ok (.Identifier tok.2.1, idx + 1)
    else if tok.1 = "NUM" then .ok (.Number tok.2.1, idx + 1)
    else if tok.1 = "STRING" then .ok (.StringLit tok.2.1, idx + 1)
    else .error ("Expr 起始符错误：" ++ tok.1)

/-- The relational-operator literals `_parse_RelOp` tries, in source order. -/
def relOps : List String := ["=", "<>", "<", ">", "<=", ">=", "!="]

/-- The `for op in [...]: if self._accept(op): return op` loop of
`_parse_RelOp`. -/
def tryRelOps (stream : List MTok) (idx : Nat) :
    List String → Except String (Option (String × Nat))
  | [] => .ok none
  | op :: rest =>
    match accept stream idx op with
    | .error e => .error e
    | .ok (some _, i) => .ok (some (op, i))
    | .ok (none, _) => tryRelOps stream idx rest

/-- `_parse_RelOp`: one of the relational operators, else
`SyntaxError(f"关系运算符错误：{tok[0]}")`. -/
def parse_RelOp (stream : List MTok) (idx : Nat) : Except String (String × Nat) :=
  match tryRelOps stream idx relOps with
  | .error e => .error e
  | .ok (some r) => .ok r
  | .ok none =>
    match currentTok stream idx with
    | .error e => .error e
    | .ok tok => .error ("关系运算符错误：" ++ tok.1)

mutual

/-- `_parse_Cond`: parse `Expr RelOp Expr` into a `BinaryOp` node, then if
`_parse_CondTail` produced `(op2, rhs)`, wrap as
`BinaryOp(node, op2, rhs)`. -/
def parse_Cond : Nat → List MTok → Nat → Except String (ASTNode × Nat)
  | 0, _, _ => .error "递归深度超限"
  | fuel + 1, stream, idx =>
    match parse_Expr stream idx with
    | .error e => .error e
    | .ok (left, i1) =>
      match parse_RelOp stream i1 with
      | .error e => .error e
      | .ok (op, i2) =>
        match parse_Expr stream i2 with
        | .error e => .error e
        | .ok (right, i3) =>
          let node := ASTNode.BinaryOp left op right
          match parse_CondTail fuel stream i3 with
          | .error e => .error e
          | .ok (none, i4) => .ok (node, i4)
          | .ok (some (op2, rhs), i4) => .ok (.BinaryOp node op2 rhs, i4)

/-- `_parse_CondTail`: `ε | AND Cond | OR Cond`, returning the combinator and
the recursively parsed right-hand condition when present. -/
def parse_CondTail : Nat → List MTok → Nat →
    Except String (Option (String × ASTNode) × Nat)
  | 0, _, _ => .error "递归深度超限"
  | fuel + 1, stream, idx =>
    match accept stream idx "AND" with
    | .error e => .error e
    | .ok (some _, i) =>
      match parse_Cond fuel stream i with
      | .error e => .error e
      | .ok (rhs, i2) => .ok (some ("AND", rhs), i2)
    | .ok (none, _) =>
      match accept stream idx "OR" with
      | .error e => .error e
      | .ok (some _, i) =>
        match parse_Cond fuel stream i with
        | .error e => .error e
        | .ok (rhs, i2) => .ok (some ("OR", rhs), i2)
      | .ok (none, i) => .ok (none, i)

end

/-- `_parse_WhereOpt`: `ε | WHERE Cond` (`None` for an absent clause). -/
def parse_WhereOpt (fuel : Nat) (stream : List MTok) (idx : Nat) :
    Except String (Option ASTNode × Nat) :=
  match accept stream idx "WHERE" with
  | .error e => .error e
  | .ok (some _, i) =>
    match parse_Cond fuel stream i with
    | .error e => .error e
    | .ok (node, i2) => .ok (some node, i2)
  | .ok (none, i) => .ok (none, i)

/-- `_parse_Query`: only the SELECT alternative builds a tree; every other
start raises `NotImplementedError('当前 AST 构建仅实现 SELECT 语句')`. -/
def parse_Query (fuel : Nat) (stream : List MTok) (idx : Nat) :
    Except String (ASTNode × Nat) :=
  match accept stream idx "SELECT" with
  | .error e => .error e
  | .ok (some _, i) =>
    match parse_SelList fuel stream i with
    | .error e => .error e
    | .ok (cols, i1) =>
      match expect stream i1 "FROM" with
      | .error e => .error e
      | .ok (_, i2) =>
        match parse_Tbl stream i2 with
        | .error e => .error e
        | .ok (tbl, i3) =>
          match parse_WhereOpt fuel stream i3 with
          | .error e => .error e
          | .ok (whereClause, i4) => .ok (.Select cols tbl whereClause, i4)
  | .ok (none, _) => .error "当前 AST 构建仅实现 SELECT 语句"

/-- `_parse_Prog`: `Query ;`. -/
def parse_Prog (fuel : Nat) (stream : List MTok) (idx : Nat) :
    Except String (ASTNode × Nat) :=
  match parse_Query fuel stream idx with
  | .error e => .error e
  | .ok (q, i) =>
    match expect stream i ";" with
    | .error e => .error e
    | .ok (_, i2) => .ok (.Program q, i2)

/-- `build_ast_from_tokens`: map the tokens (`_map_tokens`), set
`self._idx = 0` and `self._stream`, parse a `Prog` and expect `EOF`.
The result keeps the analyzer state: its `stream` and `idx` fields are
updated, everything set in `__init__` is untouched.  (On an error the exact
final cursor value is not tracked; no statement below depends on it.) -/
def buildAstFromTokens (a : Analyzer) (tokens : List Tok) :
    Except String ASTNode × Analyzer :=
  let stream := mapTokens tokens
  let a1 := { a with idx := 0, stream := stream }
  match parse_Prog (stream.length + 1) stream 0 with
  | .error e => (.error e, a1)
  | .ok (prog, i) =>
    match expect stream i "EOF" with
    | .error e => (.error e, { a1 with idx := i })
    | .ok (_, i2) => (.ok prog, { a1 with idx := i2 })

/-! ## Concrete token lists and auxiliary definitions used by the statements -/

/-- The token list `tokenize` produces for `"SELECT FROM t;"`
(ill-formed: the select list is missing). -/
def selectFromTokens : List Tok :=
  [("KEYWORD", "SELECT", 1, 0), ("KEYWORD", "FROM", 1, 7), ("ID", "t", 1, 12),
   ("RANGE", ";", 1, 13)]

/-- The token list `tokenize` produces for `"DELETE FROM t;"`. -/
def deleteTokens : List Tok :=
  [("KEYWORD", "DELETE", 1, 0), ("KEYWORD", "FROM", 1, 7), ("ID", "t", 1, 12),
   ("RANGE", ";", 1, 13)]

/-- The token list `tokenize` produces for `"INSERT INTO t VALUES (1);"`. -/
def insertTokens : List Tok :=
  [("KEYWORD", "INSERT", 1, 0), ("KEYWORD", "INTO", 1, 7), ("ID", "t", 1, 12),
   ("KEYWORD", "VALUES", 1, 14), ("RANGE", "(", 1, 21), ("NUM", "1", 1, 22),
   ("RANGE", ")", 1, 23), ("RANGE", ";", 1, 24)]

/-- The token list `tokenize` produces for `"UPDATE t SET a = 1;"`. -/
def updateTokens : List Tok :=
  [("KEYWORD", "UPDATE", 1, 0), ("ID", "t", 1, 7), ("KEYWORD", "SET", 1, 9),
   ("ID", "a", 1, 13), ("OP", "=", 1, 15), ("NUM", "1", 1, 17),
   ("RANGE", ";", 1, 18)]

/-- The token list `tokenize` produces for `"CREATE TABLE t;"`
(`CREATE` and `TABLE` are lexer keywords). -/
def createTokens : List Tok :=
  [("KEYWORD", "CREATE", 1, 0), ("KEYWORD", "TABLE", 1, 7), ("ID", "t", 1, 13),
   ("RANGE", ";", 1, 14)]

/-- The token list `tokenize` produces for
`"SELECT a, b FROM t WHERE a = 1 AND b <> 2;"`. -/
def selectWhereTokens : List Tok :=
  [("KEYWORD", "SELECT", 1, 0), ("ID", "a", 1, 7), ("RANGE", ",", 1, 8),
   ("ID", "b", 1, 10), ("KEYWORD", "FROM", 1, 12), ("ID", "t", 1, 17),
   ("KEYWORD", "WHERE", 1, 19), ("ID", "a", 1, 25), ("OP", "=", 1, 27),
   ("NUM", "1", 1, 29), ("KEYWORD", "AND", 1, 31), ("ID", "b", 1, 35),
   ("OP", "<>", 1, 37), ("NUM", "2", 1, 40), ("RANGE", ";", 1, 41)]

/-- Modelled from the spec (for comparison only, not from the source): the
engine loop's failure output as §4.3/§6 describe it — "Append a TraceRecord
for every step … an error record is the last record of the run", i.e. on an
error the whole accumulated trace, error record last, is the result.  The
source (`analyze_tokens`) instead returns `_create_error_output(msg)`. -/
def engineLoopSpecTrace (tbl : List ((String × String) × List String))
    (terminals nts : List String) :
    Nat → List String → List MTok → Nat → List TraceRecord → List TraceRecord
  | 0, _, _, _, output => output
  | fuel + 1, stack, input, step, output =>
    if stack = [] then output
    else
      match engineStep tbl terminals nts stack input (step + 1) with
      | .acceptRec rec => output ++ [rec]
      | .errorHalt rec _ => output ++ [rec]
      | .next stack1 input1 rec =>
        engineLoopSpecTrace tbl terminals nts fuel stack1 input1 (step + 1) (output ++ [rec])

/-- A tiny grammar whose two productions of `A` share the FIRST terminal `x`:
it makes `_build_parsing_table` assign the cell `(A, x)` twice, exposing the
conflict policy.  (`buildParsingTable` is exactly the source algorithm, which
is generic in the grammar data it reads off `self`.) -/
def conflictG : GrammarDef :=
  { grammar := [("A", [["x", "y"], ["x", "z"]])], terminals := ["x", "y", "z"] }

/-- FIRST sets of the conflicting toy grammar. -/
def conflictFirst : SetMap := computeFirstSets conflictG

/-- The prediction table built for the toy grammar (FOLLOW plays no role:
neither production is nullable). -/
def conflictTable : TableState := buildParsingTable conflictG conflictFirst [("A", [])]

end SqlLL1

set_option maxRecDepth 100000

namespace SqlLL1

/-! ## Theorems for the claims -/

/-- C6: Building the prediction table for the fixed SQL grammar produces no
conflict: no cell (non-terminal, terminal) is ever assigned a production
twice, so the list of conflict warnings is empty. -/
theorem C6_no_conflicts : sqlTableState.conflicts = [] := by rfl

/-- C7: For the fixed grammar, the computed FIRST set of the expression
non-terminal `Expr` is exactly the set of the three terminals `ID`, `NUM`,
`STRING`, and the computed FOLLOW set of the start non-terminal `Prog`
contains the end-of-input marker `$`. -/
theorem C7_first_follow :
    getSet sqlFirstSets "Expr" = ["ID", "NUM", "STRING"] ∧
    "$" ∈ getSet sqlFollowSets "Prog" := by
  constructor
  · rfl
  · decide

/-! ### Helper lemmas (shared) -/

/-- Appending a fresh key to an association list makes it found by `lookup`. -/
theorem lookup_append_single (l : List ((String × String) × List String))
    (k : String × String) (v : List String) (h : l.lookup k = none) :
    (l ++ [(k, v)]).lookup k = some v := by
  induction l with
  | nil => simp [List.lookup]
  | cons e t ih =>
    rw [List.lookup] at h
    rw [List.cons_append, List.lookup]
    rcases he : (k == e.1) with _ | _
    · rw [he] at h
      exact ih h
    · rw [he] at h
      exact absurd h (by simp)

/-- Replacing the value at a present key makes `lookup` return the new value. -/
theorem lookup_map_replace (l : List ((String × String) × List String))
    (k : String × String) (v : List String) (h : (l.lookup k).isSome) :
    ((l.map (fun e => if e.1 = k then (k, v) else e)).lookup k) = some v := by
  induction l with
  | nil => simp [List.lookup] at h
  | cons e t ih =>
    by_cases he : e.1 = k
    · simp [he, List.lookup_cons]
    · rw [List.lookup, show (k == e.1) = false by simp [Ne.symm he]] at h
      simp only [List.map_cons, if_neg he]
      rw [List.lookup, show (k == e.1) = false by simp [Ne.symm he]]
      exact ih h

/-- C3: Every parse invocation — a trace-engine run or a tree build, whether
it succeeds or fails — leaves the grammar, FIRST sets, FOLLOW sets, and
prediction table exactly as they were after construction: `analyze_tokens`
returns the analyzer state unchanged, and `build_ast_from_tokens` changes
only the tree builder's cursor fields (`_stream`, `_idx`). -/
theorem C3_core_state_immutable (fuel : Nat) (a : Analyzer) (tokens : List Tok) :
    ((analyzeTokens fuel a tokens).2 = a) ∧
    ((buildAstFromTokens a tokens).2.grammar = a.grammar ∧
     (buildAstFromTokens a tokens).2.terminals = a.terminals ∧
     (buildAstFromTokens a tokens).2.non_terminals = a.non_terminals ∧
     (buildAstFromTokens a tokens).2.first_sets = a.first_sets ∧
     (buildAstFromTokens a tokens).2.follow_sets = a.follow_sets ∧
     (buildAstFromTokens a tokens).2.parsing_table = a.parsing_table) := by
  constructor
  · unfold analyzeTokens analyzeTokensFull
    by_cases h : tokens = [] <;> simp [h]
  · dsimp only [buildAstFromTokens]
    split
    · simp
    · split <;> simp

/-- C1 (counterexample): on a grammar where the cell `(A, x)` is assigned
twice, the production kept in the final table is the second-assigned
`x z`, not the earliest-assigned `x y`; the conflict is logged. -/
theorem C1_counterexample :
    conflictTable.conflicts = [("A", "x")] ∧
    tableGet conflictTable.table "A" "x" = some ["x", "z"] ∧
    some (["x", "z"] : List String) ≠ some ["x", "y"] :=
  ⟨rfl, rfl, by decide⟩

/-- C1 (amended): during prediction-table construction, every assignment to
a cell installs its production unconditionally, so for a cell assigned more
than once the production kept in the final table is the latest-assigned one;
a conflicting (re-)assignment is logged as a conflict and also replaces the
existing entry. -/
theorem C1_amended (st : TableState) (nt t : String) (production : List String) :
    tableGet (tableAssign st nt t production).table nt t = some production ∧
    ((tableGet st.table nt t).isSome →
      (tableAssign st nt t production).conflicts = st.conflicts ++ [(nt, t)]) ∧
    (tableGet st.table nt t = none →
      (tableAssign st nt t production).conflicts = st.conflicts) := by
  unfold tableAssign tableGet
  by_cases h : (st.table.lookup (nt, t)).isSome
  · refine ⟨?_, fun _ => by simp [h], fun hn => ?_⟩
    · simp only [h, if_true]
      exact lookup_map_replace st.table (nt, t) production h
    · rw [hn] at h
      simp at h
  · have hn : st.table.lookup (nt, t) = none := by
      cases hh : st.table.lookup (nt, t)
      · rfl
      · rw [hh] at h
        simp at h
    refine ⟨?_, fun hs => ?_, fun _ => by simp [h]⟩
    · simp only [h, if_false]
      exact lookup_append_single st.table (nt, t) production hn
    · rw [hn] at hs
      simp at hs

/-- Closed witness for `C1_amended` at a concrete one-cell table. -/
theorem C1_amended_witness :
    tableGet (tableAssign { table := [(("A", "x"), ["x", "y"])], conflicts := [] }
        "A" "x" ["x", "z"]).table "A" "x" = some ["x", "z"] ∧
    (tableAssign { table := [(("A", "x"), ["x", "y"])], conflicts := [] }
        "A" "x" ["x", "z"]).conflicts = [] ++ [("A", "x")] :=
  ⟨(C1_amended { table := [(("A", "x"), ["x", "y"])], conflicts := [] } "A" "x" ["x", "z"]).1,
   (C1_amended { table := [(("A", "x"), ["x", "y"])], conflicts := [] } "A" "x" ["x", "z"]).2.1
     (by decide)⟩

/-- C5 (counterexample): on the accepted run for `"DELETE FROM t;"` the
engine's final stack still holds the end-of-input marker: the accept branch
records the accept action and `break`s without popping `'$'`. -/
theorem C5_counterexample :
    ((analyzeTokensFull 100 initAnalyzer deleteTokens).1.2 = ["$"]) ∧
    (((analyzeTokensFull 100 initAnalyzer deleteTokens).1.1.map
        TraceRecord.expression).getLast? = some "接受") ∧
    (["$"] : List String) ≠ [] :=
  ⟨by rfl, by rfl, by decide⟩

/-- C5 (amended): at any engine step where the stack top is the end-of-input
marker and the current input terminal is the end-of-input marker, the engine
records an accept action and terminates successfully — without popping the
marker: the loop exits with the marker still on the (discarded) stack. -/
theorem C5_amended (tbl : List ((String × String) × List String))
    (terminals nts : List String) (st : List String) (input : List MTok)
    (stepNo fuel : Nat) (output : List TraceRecord)
    (hcur : (input.headD ("EOF", "$", 0, 0)).1 = "EOF") :
    engineStep tbl terminals nts (st ++ ["$"]) input (stepNo + 1) =
      .acceptRec { step := stepNo + 1, stackSnapshot := st ++ ["$"],
                   inputPreview := (input.take 3).map (fun t => (t.1, t.2.1)),
                   expression := "接受" } ∧
    engineLoopFull tbl terminals nts (fuel + 1) (st ++ ["$"]) input stepNo output =
      (output ++ [{ step := stepNo + 1, stackSnapshot := st ++ ["$"],
                    inputPreview := (input.take 3).map (fun t => (t.1, t.2.1)),
                    expression := "接受" }], st ++ ["$"]) := by
  have hstep : engineStep tbl terminals nts (st ++ ["$"]) input (stepNo + 1) =
      .acceptRec { step := stepNo + 1, stackSnapshot := st ++ ["$"],
                   inputPreview := (input.take 3).map (fun t => (t.1, t.2.1)),
                   expression := "接受" } := by
    simp only [engineStep]
    rw [List.getLastD_concat, hcur]
    simp
  refine ⟨hstep, ?_⟩
  unfold engineLoopFull
  rw [if_neg (by simp), hstep]

/-- Closed witness for `C5_amended` at the accept configuration of a finished
run. -/
theorem C5_amended_witness :
    engineStep sqlTableState.table sql_terminals (nonTerminalsOf sqlG)
        (["$"] : List String) [("EOF", "$", 0, 0)] 8 =
      .acceptRec { step := 8, stackSnapshot := ["$"],
                   inputPreview := [("EOF", "$")], expression := "接受" } ∧
    engineLoopFull sqlTableState.table sql_terminals (nonTerminalsOf sqlG)
        100 (["$"] : List String) [("EOF", "$", 0, 0)] 7 [] =
      ([{ step := 8, stackSnapshot := ["$"],
          inputPreview := [("EOF", "$")], expression := "接受" }], ["$"]) := by
  have h := C5_amended sqlTableState.table sql_terminals (nonTerminalsOf sqlG)
    [] [("EOF", "$", 0, 0)] 7 99 [] (by rfl)
  simpa using h

/-- Every non-terminal of the fixed grammar is outside the terminal set and
distinct from the stack-bottom marker. -/
theorem sql_nt_props : ∀ s ∈ nonTerminalsOf sqlG, s ∉ sql_terminals ∧ s ≠ "$" := by
  decide

/-- C4: At every engine step where the stack top is a non-terminal with a
present table entry for the current terminal, the engine pops the
non-terminal and, when the chosen production is non-empty, pushes its symbols
in reverse order (so the production's leftmost symbol becomes the new stack
top); when the chosen production is empty it pushes nothing.  The stack's top
is its last element, as in the source. -/
theorem C4_expansion_step (st : List String) (top : String) (input : List MTok)
    (stepNo : Nat) (production : List String)
    (hnt : top ∈ nonTerminalsOf sqlG)
    (htbl : tableGet sqlTableState.table top (input.headD ("EOF", "$", 0, 0)).1 =
      some production) :
    (∃ rec, engineStep sqlTableState.table sql_terminals (nonTerminalsOf sqlG)
        (st ++ [top]) input stepNo = .next (st ++ production.reverse) input rec) ∧
    (st ++ [top]).dropLast = st ∧
    (production = [] → st ++ production.reverse = st) ∧
    (production ≠ [] → (st ++ production.reverse).getLast? = production.head?) := by
  have hterm : top ∉ sql_terminals := (sql_nt_props top hnt).1
  have hdol : top ≠ "$" := (sql_nt_props top hnt).2
  refine ⟨?_, List.dropLast_concat, fun hp => by simp [hp], fun hp => ?_⟩
  · simp only [engineStep, List.getLastD_concat, htbl]
    rw [if_neg (fun hc => hdol hc.1), if_neg hterm, if_pos hnt]
    cases production with
    | nil =>
      exact ⟨{ step := stepNo, stackSnapshot := st ++ [top],
               inputPreview := (input.take 3).map (fun t => (t.1, t.2.1)),
               expression := "用 " ++ top ++ " -> ε" }, by simp⟩
    | cons p ps =>
      exact ⟨{ step := stepNo, stackSnapshot := st ++ [top],
               inputPreview := (input.take 3).map (fun t => (t.1, t.2.1)),
               expression := "用 " ++ top ++ " -> " ++ String.intercalate " " (p :: ps) },
             by simp⟩
  · rw [List.getLast?_append, List.getLast?_reverse]
    cases production with
    | nil => exact absurd rfl hp
    | cons p ps => simp

/-- Closed witness for `C4_expansion_step`: expanding `Query` on terminal
`INSERT` pushes the INSERT production in reverse. -/
theorem C4_expansion_step_witness :
    (∃ rec, engineStep sqlTableState.table sql_terminals (nonTerminalsOf sqlG)
        (["$", ";"] ++ ["Query"]) [("INSERT", "INSERT", 1, 0)] 2 =
      .next (["$", ";"] ++
          (["INSERT", "INTO", "Tbl", "VALUES", "(", "ValList", ")"] : List String).reverse)
        [("INSERT", "INSERT", 1, 0)] rec) ∧
    (["$", ";", "Query"] : List String).dropLast = ["$", ";"] ∧
    ((["INSERT", "INTO", "Tbl", "VALUES", "(", "ValList", ")"] : List String) = [] →
      ["$", ";"] ++
        (["INSERT", "INTO", "Tbl", "VALUES", "(", "ValList", ")"] : List String).reverse =
        ["$", ";"]) ∧
    ((["INSERT", "INTO", "Tbl", "VALUES", "(", "ValList", ")"] : List String) ≠ [] →
      (["$", ";"] ++
        (["INSERT", "INTO", "Tbl", "VALUES", "(", "ValList", ")"] : List String).reverse).getLast? =
        (["INSERT", "INTO", "Tbl", "VALUES", "(", "ValList", ")"] : List String).head?) :=
  C4_expansion_step ["$", ";"] "Query" [("INSERT", "INSERT", 1, 0)] 2
    ["INSERT", "INTO", "Tbl", "VALUES", "(", "ValList", ")"] (by decide) (by rfl)

/-- C2 (counterexample): for the failing stream of `"SELECT FROM t;"`, the
value `analyze_tokens` returns is the single record `[1, [], [], msg]` from
`_create_error_output`, not the run's ordered trace: the run's trace (spec
behaviour) has four records and its error record carries step 4. -/
theorem C2_counterexample :
    (analyzeTokens 100 initAnalyzer selectFromTokens).1 =
      createErrorOutput "错误：SelList 在 FROM 处无产生式" ∧
    createErrorOutput "错误：SelList 在 FROM 处无产生式" =
      [{ step := 1, stackSnapshot := [], inputPreview := [],
         expression := "错误：SelList 在 FROM 处无产生式" }] ∧
    engineLoopSpecTrace sqlTableState.table sql_terminals (nonTerminalsOf sqlG)
        100 ["$", "Prog"] (mapTokens selectFromTokens) 0 [] =
      [{ step := 1, stackSnapshot := ["$", "Prog"],
         inputPreview := [("SELECT", "SELECT"), ("FROM", "FROM"), ("ID", "t")],
         expression := "用 Prog -> Query ;" },
       { step := 2, stackSnapshot := ["$", ";", "Query"],
         inputPreview := [("SELECT", "SELECT"), ("FROM", "FROM"), ("ID", "t")],
         expression := "用 Query -> SELECT SelList FROM Tbl WhereOpt" },
       { step := 3,
         stackSnapshot := ["$", ";", "WhereOpt", "Tbl", "FROM", "SelList", "SELECT"],
         inputPreview := [("SELECT", "SELECT"), ("FROM", "FROM"), ("ID", "t")],
         expression := "匹配 SELECT" },
       { step := 4, stackSnapshot := ["$", ";", "WhereOpt", "Tbl", "FROM", "SelList"],
         inputPreview := [("FROM", "FROM"), ("ID", "t"), (";", ";")],
         expression := "错误：SelList 在 FROM 处无产生式" }] ∧
    ([{ step := 1, stackSnapshot := [], inputPreview := [],
        expression := "错误：SelList 在 FROM 处无产生式" }] : List TraceRecord) ≠
      [{ step := 1, stackSnapshot := ["$", "Prog"],
         inputPreview := [("SELECT", "SELECT"), ("FROM", "FROM"), ("ID", "t")],
         expression := "用 Prog -> Query ;" },
       { step := 2, stackSnapshot := ["$", ";", "Query"],
         inputPreview := [("SELECT", "SELECT"), ("FROM", "FROM"), ("ID", "t")],
         expression := "用 Query -> SELECT SelList FROM Tbl WhereOpt" },
       { step := 3,
         stackSnapshot := ["$", ";", "WhereOpt", "Tbl", "FROM", "SelList", "SELECT"],
         inputPreview := [("SELECT", "SELECT"), ("FROM", "FROM"), ("ID", "t")],
         expression := "匹配 SELECT" },
       { step := 4, stackSnapshot := ["$", ";", "WhereOpt", "Tbl", "FROM", "SelList"],
         inputPreview := [("FROM", "FROM"), ("ID", "t"), (";", ";")],
         expression := "错误：SelList 在 FROM 处无产生式" }] :=
  ⟨by rfl, rfl, by rfl, by decide⟩

/-- C2 (amended): whenever an engine step fails, `analyze_tokens` returns
`_create_error_output(msg)` — a single record with step index fixed at 1 and
empty stack/input snapshots, carrying the human-readable message; the
accumulated trace (which ends with the error record at the actual step) is
discarded. -/
theorem C2_amended (tbl : List ((String × String) × List String))
    (terminals nts : List String) (fuel stepNo : Nat)
    (stack : List String) (input : List MTok) (output : List TraceRecord)
    (rec : TraceRecord) (msg : String)
    (hne : stack ≠ [])
    (hstep : engineStep tbl terminals nts stack input (stepNo + 1) = .errorHalt rec msg) :
    engineLoopFull tbl terminals nts (fuel + 1) stack input stepNo output =
      (createErrorOutput msg, stack) ∧
    createErrorOutput msg =
      [{ step := 1, stackSnapshot := [], inputPreview := [], expression := msg }] := by
  constructor
  · unfold engineLoopFull
    rw [if_neg hne, hstep]
  · rfl

/-- Closed witness for `C2_amended` at the step-4 configuration of the
`"SELECT FROM t;"` run. -/
theorem C2_amended_witness :
    engineLoopFull sqlTableState.table sql_terminals (nonTerminalsOf sqlG) 97
        ["$", ";", "WhereOpt", "Tbl", "FROM", "SelList"]
        [("FROM", "FROM", 1, 7), ("ID", "t", 1, 12), (";", ";", 1, 13), ("EOF", "$", 0, 0)]
        3 [] =
      (createErrorOutput "错误：SelList 在 FROM 处无产生式",
        ["$", ";", "WhereOpt", "Tbl", "FROM", "SelList"]) ∧
    createErrorOutput "错误：SelList 在 FROM 处无产生式" =
      [{ step := 1, stackSnapshot := [], inputPreview := [],
         expression := "错误：SelList 在 FROM 处无产生式" }] :=
  C2_amended sqlTableState.table sql_terminals (nonTerminalsOf sqlG) 96 3
    ["$", ";", "WhereOpt", "Tbl", "FROM", "SelList"]
    [("FROM", "FROM", 1, 7), ("ID", "t", 1, 12), (";", ";", 1, 13), ("EOF", "$", 0, 0)] []
    { step := 4, stackSnapshot := ["$", ";", "WhereOpt", "Tbl", "FROM", "SelList"],
      inputPreview := [("FROM", "FROM"), ("ID", "t"), (";", ";")],
      expression := "错误：SelList 在 FROM 处无产生式" }
    "错误：SelList 在 FROM 处无产生式" (by decide) (by rfl)

/-- C8: `_parse_Cond` parses one comparison into a `BinaryOp` node and, when
`_parse_CondTail` reports a following `AND`/`OR` with a recursively parsed
condition, wraps it as `BinaryOp(previousNode, combinator, recursiveNode)`
(a right-leaning tree); in particular for
`"SELECT a, b FROM t WHERE a = 1 AND b <> 2;"` the builder yields
`Program(Select(Columns(false,[a,b]), Table(t),
BinaryOp(BinaryOp(Id(a) = Num(1)), AND, BinaryOp(Id(b) <> Num(2)))))`. -/
theorem C8_right_leaning_where
    (fuel : Nat) (stream : List MTok) (idx i1 i2 i3 i4 : Nat)
    (left right rhs : ASTNode) (op op2 : String)
    (h1 : parse_Expr stream idx = .ok (left, i1))
    (h2 : parse_RelOp stream i1 = .ok (op, i2))
    (h3 : parse_Expr stream i2 = .ok (right, i3))
    (h4 : parse_CondTail fuel stream i3 = .ok (some (op2, rhs), i4)) :
    parse_Cond (fuel + 1) stream idx =
      .ok (.BinaryOp (.BinaryOp left op right) op2 rhs, i4) ∧
    (buildAstFromTokens initAnalyzer selectWhereTokens).1 =
      .ok (.Program (.Select (.Columns false ["a", "b"]) (.Table "t")
        (some (.BinaryOp
          (.BinaryOp (.Identifier "a") "=" (.Number "1")) "AND"
          (.BinaryOp (.Identifier "b") "<>" (.Number "2")))))) := by
  constructor
  · simp only [parse_Cond, h1, h2, h3, h4]
  · rfl

/-- Closed witness for `C8_right_leaning_where` at the WHERE clause of
`"SELECT a, b FROM t WHERE a = 1 AND b <> 2;"` (cursor 7 of the mapped
stream). -/
theorem C8_right_leaning_where_witness :
    parse_Cond 4 (mapTokens selectWhereTokens) 7 =
      .ok (.BinaryOp
        (.BinaryOp (.Identifier "a") "=" (.Number "1")) "AND"
        (.BinaryOp (.Identifier "b") "<>" (.Number "2")), 14) ∧
    (buildAstFromTokens initAnalyzer selectWhereTokens).1 =
      .ok (.Program (.Select (.Columns false ["a", "b"]) (.Table "t")
        (some (.BinaryOp
          (.BinaryOp (.Identifier "a") "=" (.Number "1")) "AND"
          (.BinaryOp (.Identifier "b") "<>" (.Number "2")))))) :=
  C8_right_leaning_where 3 (mapTokens selectWhereTokens) 7 8 9 10 14
    (.Identifier "a") (.Number "1")
    (.BinaryOp (.Identifier "b") "<>" (.Number "2")) "=" "AND"
    (by rfl) (by rfl) (by rfl) (by rfl)

/-- Requesting a tree for any token stream whose first mapped terminal is one
of `INSERT`, `UPDATE`, `DELETE`, `CREATE` raises the unsupported-statement
error (and hence returns no tree node). -/
theorem buildAst_unsupported (a : Analyzer) (tokens : List Tok)
    (h : ((mapTokens tokens).headD ("EOF", "$", 0, 0)).1 ∈
      (["INSERT", "UPDATE", "DELETE", "CREATE"] : List String)) :
    (buildAstFromTokens a tokens).1 = .error "当前 AST 构建仅实现 SELECT 语句" := by
  obtain ⟨t, rest, hst⟩ : ∃ t rest, mapTokens tokens = t :: rest := by
    cases hm : mapTokens tokens with
    | nil => exact absurd hm (by unfold mapTokens; simp)
    | cons t rest => exact ⟨t, rest, rfl⟩
  rw [hst] at h
  simp only [List.headD_cons] at h
  have hsel : t.1 ≠ "SELECT" := by
    simp only [List.mem_cons, List.not_mem_nil, or_false] at h
    rcases h with h | h | h | h <;> rw [h] <;> decide
  simp only [buildAstFromTokens, parse_Prog, parse_Query, accept, currentTok, hst]
  simp [hsel]

/-- C9 (counterexample): for the CREATE-form statement `"CREATE TABLE t;"`,
the table-driven engine does not recognize the statement: the run fails at
once (`Prog` has no production at `CREATE`, which is not even a grammar
terminal) and no accept record is produced. -/
theorem C9_counterexample :
    (analyzeTokens 100 initAnalyzer createTokens).1 =
      [{ step := 1, stackSnapshot := [], inputPreview := [],
         expression := "错误：Prog 在 CREATE 处无产生式" }] ∧
    ∀ rec ∈ (analyzeTokens 100 initAnalyzer createTokens).1,
      TraceRecord.expression rec ≠ "接受" :=
  ⟨by rfl, by decide⟩

/-- C9 (amended): statements of the INSERT, UPDATE and DELETE forms are
recognized by the table-driven engine (their runs end in an accept record,
and the `Query` row has entries at those terminals), while CREATE is not in
the grammar at all: its table cell is absent and a CREATE statement's trace
run fails immediately.  Requesting a syntax tree for any of the four forms
produces the explicit unsupported-statement error and never a tree node. -/
theorem C9_amended :
    (((analyzeTokens 100 initAnalyzer insertTokens).1.map
        TraceRecord.expression).getLast? = some "接受") ∧
    (((analyzeTokens 100 initAnalyzer updateTokens).1.map
        TraceRecord.expression).getLast? = some "接受") ∧
    (((analyzeTokens 100 initAnalyzer deleteTokens).1.map
        TraceRecord.expression).getLast? = some "接受") ∧
    tableGet sqlTableState.table "Query" "INSERT" =
      some ["INSERT", "INTO", "Tbl", "VALUES", "(", "ValList", ")"] ∧
    tableGet sqlTableState.table "Query" "UPDATE" =
      some ["UPDATE", "Tbl", "SET", "SetList"] ∧
    tableGet sqlTableState.table "Query" "DELETE" = some ["DELETE", "FROM", "Tbl"] ∧
    tableGet sqlTableState.table "Query" "CREATE" = none ∧
    (analyzeTokens 100 initAnalyzer createTokens).1 =
      createErrorOutput "错误：Prog 在 CREATE 处无产生式" ∧
    (∀ (a : Analyzer) (tokens : List Tok),
      ((mapTokens tokens).headD ("EOF", "$", 0, 0)).1 ∈
        (["INSERT", "UPDATE", "DELETE", "CREATE"] : List String) →
      (buildAstFromTokens a tokens).1 = .error "当前 AST 构建仅实现 SELECT 语句") :=
  ⟨by rfl, by rfl, by rfl, by rfl, by rfl, by rfl, by rfl, by rfl, buildAst_unsupported⟩

/-- Closed witness for `C9_amended`'s quantified conjunct, at the CREATE
statement. -/
theorem C9_amended_witness :
    (buildAstFromTokens initAnalyzer createTokens).1 =
      .error "当前 AST 构建仅实现 SELECT 语句" :=
  C9_amended.2.2.2.2.2.2.2.2 initAnalyzer createTokens (by decide)

/-- Dropping the tokens the conversion discards does not change the converted
stream. -/
theorem mapTokens_filter (tokens : List Tok) :
    mapTokens (tokens.filter keepToken) = mapTokens tokens := by
  unfold mapTokens
  congr 1
  induction tokens with
  | nil => rfl
  | cons t ts ih =>
    cases ho : token_to_terminal t.1 t.2.1 with
    | none =>
      have hk : keepToken t = false := by simp [keepToken, ho]
      simp [List.filter_cons, hk, List.filterMap_cons, ho, ih]
    | some o2 =>
      cases o2 with
      | none =>
        have hk : keepToken t = false := by simp [keepToken, ho]
        simp [List.filter_cons, hk, List.filterMap_cons, ho, ih]
      | some term =>
        have hk : keepToken t = true := by simp [keepToken, ho]
        simp [List.filter_cons, hk, List.filterMap_cons, ho, ih]

/-- C10 (counterexample): an input consisting of one COMMENT token is not
parsed like the stream with that token removed: the engine still runs (and
fails on the table miss at `EOF`), whereas the emptied stream takes the
empty-input path — the two outcomes differ. -/
theorem C10_counterexample :
    ([(("COMMENT", "-- note", 1, 0) : Tok)].filter keepToken = []) ∧
    (analyzeTokens 100 initAnalyzer [("COMMENT", "-- note", 1, 0)]).1 =
      [{ step := 1, stackSnapshot := [], inputPreview := [],
         expression := "错误：Prog 在 EOF 处无产生式" }] ∧
    (analyzeTokens 100 initAnalyzer
        ([(("COMMENT", "-- note", 1, 0) : Tok)].filter keepToken)).1 =
      [{ step := 1, stackSnapshot := [], inputPreview := [],
         expression := "输入为空" }] ∧
    ({ step := 1, stackSnapshot := [], inputPreview := [],
       expression := "错误：Prog 在 EOF 处无产生式" } : TraceRecord) ≠
      { step := 1, stackSnapshot := [], inputPreview := [], expression := "输入为空" } :=
  ⟨by rfl, by rfl, by rfl, by decide⟩

/-- C10 (amended): COMMENT tokens and tokens with no mapping entry are
dropped before parsing by both pipelines.  The tree builder's outcome always
equals the outcome on the filtered stream; the trace engine's outcome equals
it whenever the filtered stream is nonempty (an input consisting solely of
dropped tokens differs: the engine parses to `EOF` while the filtered, empty
input takes the empty-input error path). -/
theorem C10_amended :
    (∀ (a : Analyzer) (tokens : List Tok),
      buildAstFromTokens a (tokens.filter keepToken) = buildAstFromTokens a tokens) ∧
    (∀ (fuel : Nat) (a : Analyzer) (tokens : List Tok),
      tokens.filter keepToken ≠ [] →
      analyzeTokensFull fuel a (tokens.filter keepToken) =
        analyzeTokensFull fuel a tokens) := by
  constructor
  · intro a tokens
    simp only [buildAstFromTokens, mapTokens_filter]
  · intro fuel a tokens hfil
    have htok : tokens ≠ [] := by
      intro hnil
      rw [hnil] at hfil
      exact hfil rfl
    unfold analyzeTokensFull
    rw [if_neg hfil, if_neg htok, mapTokens_filter]

/-- Closed witness for `C10_amended` on a stream with a leading comment. -/
theorem C10_amended_witness :
    buildAstFromTokens initAnalyzer
        ((("COMMENT", "-- c", 1, 0) :: selectWhereTokens).filter keepToken) =
      buildAstFromTokens initAnalyzer (("COMMENT", "-- c", 1, 0) :: selectWhereTokens) ∧
    analyzeTokensFull 100 initAnalyzer
        ((("COMMENT", "-- c", 1, 0) :: deleteTokens).filter keepToken) =
      analyzeTokensFull 100 initAnalyzer (("COMMENT", "-- c", 1, 0) :: deleteTokens) :=
  ⟨C10_amended.1 initAnalyzer (("COMMENT", "-- c", 1, 0) :: selectWhereTokens),
   C10_amended.2 100 initAnalyzer (("COMMENT", "-- c", 1, 0) :: deleteTokens) (by decide)⟩

end SqlLL1
